import Mathlib

set_option maxRecDepth 8000

/-!
Verification development for the iDea energy-management controller
(`idea_controller_unificato.py`, `idea_server.py`, `controllo_reset_macchina.py`).

The Python code is shallowly embedded: every controller tick becomes a pure
function from its inputs (telemetry values read from `FromiDea.xml`, flag
values, cached setpoints) to its outputs (new internal state, the list of
`write_register` calls it submits, and the flag updates it performs).
Python floats are modelled as rationals (`ℚ`); Python ints as `ℤ`/`ℕ`.
File-system and printing side effects are irrelevant to the claims and are
dropped; the order of `write_register` calls is preserved in `writes` lists.
-/

/-- Python `int()` applied to a float/rational: truncation toward zero. -/
def pyInt (q : ℚ) : ℤ :=
  if 0 ≤ q.num then ((q.num.toNat / q.den : ℕ) : ℤ)
  else -(((-q.num).toNat / q.den : ℕ) : ℤ)

/-! ## Self-consumption / community controller (`IdeaNodeControllerUnified`) -/

/-- Configuration fields read by `IdeaNodeControllerUnified.__init__` from the
`autoconsumo` section of the unified JSON config. -/
structure AcParams where
  param1101_min : ℤ
  param1101_max : ℤ
  grid_setpoint_1090 : ℤ
  grid_deadband : ℤ
  step_local : ℤ
  step_community : ℤ
  bt_loss_factor : ℚ
  soc_threshold_community : ℤ
deriving Repr, DecidableEq

/-- Outcome of one autoconsumo tick: the controller's new
`current_setpoint_1101`, the value passed to `set_debito_energetico` (if it
was called), and the value submitted through `write_register(1101, ·)` (if a
write was submitted). -/
structure AcResult where
  setpoint : ℤ
  debito : Option Bool
  write1101 : Option ℤ
deriving Repr, DecidableEq

/-- The deadband step of `_regolazione_autoconsumo_locale`: leave the
setpoint alone inside the deadband, otherwise move it by `step_local` toward
zero grid exchange. -/
def ac_local_step (p : AcParams) (sp m : ℤ) : ℤ :=
  let errore := p.grid_setpoint_1090 - m
  if |errore| ≤ p.grid_deadband then sp
  else if errore > 0 then sp + p.step_local
  else sp - p.step_local

/-- The deadband step of `_balance_energy`: move the setpoint by
`step_community` toward the community target (the caller has already ruled
out the in-deadband case). -/
def ac_community_step (p : AcParams) (sp : ℤ) (errore : ℚ) : ℤ :=
  if 0 < errore then sp + p.step_community else sp - p.step_community

/-- The two successive clamp statements of `_regolazione_autoconsumo_locale`
(first raise to `param1101_min`, then cap at `param1101_max`, in this
order). -/
def clamp_low_then_high (p : AcParams) (x : ℤ) : ℤ :=
  let y := if x < p.param1101_min then p.param1101_min else x
  if y > p.param1101_max then p.param1101_max else y

/-- The two successive clamp statements of `_balance_energy` (first cap at
`param1101_max`, then raise to `param1101_min`, in this order). -/
def clamp_high_then_low (p : AcParams) (x : ℤ) : ℤ :=
  let y := if x > p.param1101_max then p.param1101_max else x
  if y < p.param1101_min then p.param1101_min else y

/-- `IdeaNodeControllerUnified._regolazione_autoconsumo_locale`: grid-zero
regulation of `1101` from sensor `1090`. -/
def regolazione_autoconsumo_locale (p : AcParams) (sp : ℤ) (sensor1090 : ℚ) :
    AcResult :=
  let misura := pyInt sensor1090
  if misura < 0 ∨ misura > 10000 then ⟨sp, none, none⟩
  else
    let sp3 := clamp_low_then_high p (ac_local_step p sp misura)
    let deb : Bool :=
      if p.param1101_max ≤ sp3 ∧ misura < p.grid_setpoint_1090 - p.grid_deadband
      then true else false
    ⟨sp3, some deb, some sp3⟩

/-- `IdeaNodeControllerUnified._balance_energy`: community-sharing regulation
of `1101` toward the target that compensates the neighbour deficit. -/
def balance_energy (p : AcParams) (sp : ℤ) (local1090 remote1090 : ℚ) :
    AcResult :=
  let ml := pyInt local1090
  let mr := pyInt remote1090
  if ml < 0 ∨ ml > 10000 then ⟨sp, none, none⟩
  else if mr < 0 ∨ mr > 10000 then ⟨sp, none, none⟩
  else if p.grid_setpoint_1090 ≤ mr then ⟨sp, none, none⟩
  else
    let diff := p.grid_setpoint_1090 - mr
    if diff ≤ 0 then ⟨sp, none, none⟩
    else
      let target : ℚ := (p.grid_setpoint_1090 : ℚ) + (diff : ℚ) +
        (diff : ℚ) * p.bt_loss_factor
      let errore : ℚ := target - (ml : ℚ)
      if |errore| ≤ (p.grid_deadband : ℚ) then ⟨sp, none, none⟩
      else
        let sp3 := clamp_high_then_low p (ac_community_step p sp errore)
        ⟨sp3, none, some sp3⟩

/-- `IdeaNodeControllerUnified.tick`, given a successful read of
`FromiDea.xml`.  Inputs: the cached setpoint, the three flags
(`autoconsumo_enabled`, `debito_energetico`, `sharing_enabled`), the local
sensors `1090`/`1040`, and the remote `1090` (consulted only when sharing is
enabled, exactly as in the source). -/
def ac_tick (p : AcParams) (sp : ℤ) (enabled debito sharing : Bool)
    (local1090 soc1040 remote1090 : ℚ) : AcResult :=
  if enabled = false then ⟨sp, none, none⟩
  else if local1090 < 0 ∨ local1090 > 10000 then ⟨sp, none, none⟩
  else
    let remote : ℚ := if sharing = true then remote1090 else 0
    if debito = false ∧ (p.soc_threshold_community : ℚ) ≤ soc1040 ∧
        sharing = true ∧ (0 < remote ∧ remote < (p.grid_setpoint_1090 : ℚ)) ∧
        (p.grid_setpoint_1090 : ℚ) - 2 * (p.grid_deadband : ℚ) ≤ local1090
    then balance_energy p sp local1090 remote
    else regolazione_autoconsumo_locale p sp local1090

/-- Default `autoconsumo` configuration values from
`ConfigManager._default_config`. -/
def acDefaults : AcParams :=
  { param1101_min := 70
    param1101_max := 6000
    grid_setpoint_1090 := 5000
    grid_deadband := 50
    step_local := 20
    step_community := 20
    bt_loss_factor := 1/10
    soc_threshold_community := 950 }

/-- Iterated local regulation: `n` consecutive ticks of
`_regolazione_autoconsumo_locale` on a constant sensor value; returns the
final `current_setpoint_1101`. -/
def iterate_local (p : AcParams) (sensor : ℚ) : ℤ → ℕ → ℤ
  | sp, 0 => sp
  | sp, n + 1 =>
      iterate_local p sensor (regolazione_autoconsumo_locale p sp sensor).setpoint n

/-! ## Machine-state reset watchdog (`MachineStateResetUnified.tick`,
identical logic in `MachineStateResetService.tick`). -/

/-- Watchdog internal state. -/
structure WdState where
  reset_attempts : ℕ
  alarm_active : Bool
deriving Repr, DecidableEq

/-- `max_attempts` as set in both watchdog constructors. -/
def wd_max_attempts : ℕ := 5

/-- One watchdog tick on an observed machine state `1070`.  Returns the new
state and whether a reset write `write_register(1103, 10)` was issued. -/
def wd_tick (st : WdState) (stato : ℤ) : WdState × Bool :=
  if stato = 2 then (⟨0, false⟩, false)
  else if stato = 0 ∨ stato = 1 then
    if st.alarm_active then (st, false)
    else if st.reset_attempts < wd_max_attempts then
      (⟨st.reset_attempts + 1, st.alarm_active⟩, true)
    else (⟨st.reset_attempts, true⟩, false)
  else (st, false)

/-- Watchdog state at construction time. -/
def wd_init : WdState := ⟨0, false⟩

/-- Watchdog state after a sequence of observed `1070` values (a failed
`FromiDea` read leaves the state untouched, so traces list only the ticks
that actually observed a value). -/
def wd_run (trace : List ℤ) : WdState :=
  trace.foldl (fun st s => (wd_tick st s).1) wd_init

/-! ## `ToiDeaManager` (command id + local cache of the `110x` registers) -/

/-- `ToiDeaManager` state: the cyclic command id and the `last_values`
cache (a Python dict from register to last written value). -/
structure ToiState where
  current_id : ℕ
  last_values : ℤ → Option ℤ

/-- State at construction: `current_id = 0`, empty cache. -/
def toi_init : ToiState := ⟨0, fun _ => none⟩

/-- `ToiDeaManager.write_register` on its success path (the `ToiDea.xml`
update succeeded): increment the id, wrap it to `0` at `6000`, record the
value in `last_values`. -/
def toi_write_register (st : ToiState) (reg val : ℤ) : ToiState :=
  let id1 := st.current_id + 1
  let id2 := if 6000 ≤ id1 then 0 else id1
  ⟨id2, fun r => if r = reg then some val else st.last_values r⟩

/-- `ToiDeaManager.get_register`: last value written for a register, with a
caller-supplied default. -/
def toi_get_register (st : ToiState) (reg dflt : ℤ) : ℤ :=
  (st.last_values reg).getD dflt

/-- State after a sequence of successful writes starting from a fresh
manager. -/
def toi_run (ws : List (ℤ × ℤ)) : ToiState :=
  ws.foldl (fun st rv => toi_write_register st rv.1 rv.2) toi_init

/-! ## Theorems -/

/-- Helper: one watchdog tick preserves the attempt bound. -/
theorem wd_tick_attempts_le (st : WdState) (s : ℤ)
    (h : st.reset_attempts ≤ wd_max_attempts) :
    (wd_tick st s).1.reset_attempts ≤ wd_max_attempts := by
  unfold wd_tick
  split
  · exact Nat.zero_le _
  · split
    · split
      · exact h
      · split
        · simp only
          omega
        · exact h
    · exact h

/-- Helper: the attempt bound holds along any trace from any compliant
start state. -/
theorem wd_foldl_attempts_le (trace : List ℤ) :
    ∀ st : WdState, st.reset_attempts ≤ wd_max_attempts →
      (trace.foldl (fun st s => (wd_tick st s).1) st).reset_attempts ≤
        wd_max_attempts := by
  induction trace with
  | nil => intro st h; simpa using h
  | cons s rest ih =>
      intro st h
      exact ih _ (wd_tick_attempts_le st s h)

/-- Claim C6: over every sequence of watchdog ticks `reset_attempts` never
exceeds `max_attempts = 5`; once `alarm_active = true` a tick that does not
observe `1070 = 2` issues no reset write and changes nothing; and a tick
observing `1070 = 2` zeroes the attempt counter, clears the alarm, and
issues no write. -/
theorem C6_watchdog_reset_invariants :
    (∀ trace : List ℤ, (wd_run trace).reset_attempts ≤ wd_max_attempts) ∧
    (∀ (st : WdState) (stato : ℤ), st.alarm_active = true → stato ≠ 2 →
      wd_tick st stato = (st, false)) ∧
    (∀ st : WdState, wd_tick st 2 = (⟨0, false⟩, false)) := by
  refine ⟨fun trace => wd_foldl_attempts_le trace wd_init (by decide),
    fun st stato halarm hne => ?_, fun st => by simp [wd_tick]⟩
  unfold wd_tick
  rw [if_neg hne]
  split
  · simp [halarm]
  · rfl

/-- Witness for C6 at concrete inputs: seven consecutive error ticks stay
within the bound; an alarmed state ignores `1070 = 1`; `1070 = 2` clears an
alarmed state. -/
theorem C6_watchdog_reset_invariants_witness :
    (wd_run [1, 1, 1, 1, 1, 1, 1]).reset_attempts ≤ wd_max_attempts ∧
    wd_tick ⟨5, true⟩ 1 = (⟨5, true⟩, false) ∧
    wd_tick ⟨5, true⟩ 2 = (⟨0, false⟩, false) :=
  ⟨C6_watchdog_reset_invariants.1 [1, 1, 1, 1, 1, 1, 1],
   C6_watchdog_reset_invariants.2.1 ⟨5, true⟩ 1 rfl (by decide),
   C6_watchdog_reset_invariants.2.2 ⟨5, true⟩⟩

/-- Claim C7: in local grid-zero mode with `1090 = 4800`, previous setpoint
`1101 = 1000`, deadband `50` and `step_local = 20`, the first tick issues the
write `1101 = 1020`; after 10 ticks of the same constant input the setpoint
has risen to `1200`, and the 10th tick's issued write is `1101 = 1200`. -/
theorem C7_local_gridzero_convergence :
    (regolazione_autoconsumo_locale acDefaults 1000 4800).write1101 =
      some 1020 ∧
    iterate_local acDefaults 4800 1000 10 = 1200 ∧
    (regolazione_autoconsumo_locale acDefaults
      (iterate_local acDefaults 4800 1000 9) 4800).write1101 = some 1200 := by
  refine ⟨by norm_num [regolazione_autoconsumo_locale, ac_local_step,
    clamp_low_then_high, acDefaults, pyInt], ?_, ?_⟩
  · norm_num [iterate_local, regolazione_autoconsumo_locale, ac_local_step,
      clamp_low_then_high, acDefaults, pyInt]
  · norm_num [iterate_local, regolazione_autoconsumo_locale, ac_local_step,
      clamp_low_then_high, acDefaults, pyInt]

/-- Helper: the command id stays below 6000 along any run of successful
writes. -/
theorem toi_foldl_id_lt (ws : List (ℤ × ℤ)) :
    ∀ st : ToiState, st.current_id < 6000 →
      (ws.foldl (fun st rv => toi_write_register st rv.1 rv.2) st).current_id <
        6000 := by
  induction ws with
  | nil => intro st h; simpa using h
  | cons rv rest ih =>
      intro st h
      refine ih _ ?_
      unfold toi_write_register
      dsimp only
      split
      · omega
      · omega

/-- Claim C10: after a successful `write_register(reg, val)`,
`get_register(reg)` returns the written value while every other register's
cached value is unchanged; the command id always stays in `0..5999`, and it
wraps to `0` from `5999` (equivalently, on reaching `6000`). -/
theorem C10_toidea_cache_and_cyclic_id :
    (∀ (st : ToiState) (reg val d : ℤ),
      toi_get_register (toi_write_register st reg val) reg d = val) ∧
    (∀ (st : ToiState) (reg val r d : ℤ), r ≠ reg →
      toi_get_register (toi_write_register st reg val) r d =
        toi_get_register st r d) ∧
    (∀ ws : List (ℤ × ℤ), (toi_run ws).current_id < 6000) ∧
    (∀ (st : ToiState) (reg val : ℤ), st.current_id = 5999 →
      (toi_write_register st reg val).current_id = 0) := by
  refine ⟨fun st reg val d => by simp [toi_get_register, toi_write_register],
    fun st reg val r d hne => by
      simp [toi_get_register, toi_write_register, hne],
    fun ws => toi_foldl_id_lt ws toi_init (by decide),
    fun st reg val h => by simp [toi_write_register, h]⟩

/-- Witness for C10 at concrete inputs: write `1101 = 50` on a fresh manager,
read it back, observe `1102` untouched, the id bound after two writes, and
the wrap from id `5999`. -/
theorem C10_toidea_cache_and_cyclic_id_witness :
    toi_get_register (toi_write_register toi_init 1101 50) 1101 0 = 50 ∧
    toi_get_register (toi_write_register toi_init 1101 50) 1102 0 =
      toi_get_register toi_init 1102 0 ∧
    (toi_run [(1101, 1), (1102, 3)]).current_id < 6000 ∧
    (toi_write_register ⟨5999, fun _ => none⟩ 1101 0).current_id = 0 :=
  ⟨C10_toidea_cache_and_cyclic_id.1 toi_init 1101 50 0,
   C10_toidea_cache_and_cyclic_id.2.1 toi_init 1101 50 1102 0 (by decide),
   C10_toidea_cache_and_cyclic_id.2.2.1 [(1101, 1), (1102, 3)],
   C10_toidea_cache_and_cyclic_id.2.2.2 ⟨5999, fun _ => none⟩ 1101 0 rfl⟩

/-! ## Battery controller (`BatteryControllerUnified`) -/

/-- Configuration fields read by `BatteryControllerUnified.__init__` from the
`meter` and `battery` sections of the unified JSON config. -/
structure BattParams where
  emergency_start_soc_dec : ℤ
  emergency_stop_soc_dec : ℤ
  guardrail_1101_min : ℤ
  ibat_low_min : ℤ
  ibat_low_max : ℤ
  ibat_max : ℤ
  step_emergency_1101 : ℤ
  emergency_1101_max : ℤ
  emergency_use_meter : Bool
  emergency_grid_limit_w : ℤ
  emergency_grid_hysteresis_w : ℤ
  contatore_prelievo_w : ℤ
  contatore_immissione_w : ℤ
deriving Repr, DecidableEq

/-- Outcome of `_handle_emergency_charge`: the new `emergency_active` flag,
the `write_register` calls issued (in order), and the value passed to
`set_autoconsumo_enabled` if it was called (last call wins). -/
structure BattResult where
  emergency_active : Bool
  writes : List (ℤ × ℤ)
  autoconsumo_enabled : Option Bool
deriving Repr, DecidableEq

/-- `BatteryControllerUnified._meter_convert_1090_to_power`: piecewise-linear
meter model mapping sensor `1090` to `(P_prelievo, P_immissione)` in watts. -/
def meter_convert_1090_to_power (p : BattParams) (par1090 : ℚ) : ℚ × ℚ :=
  if par1090 ≤ 5000 then
    ((5000 - par1090) / 5000 * (p.contatore_prelievo_w : ℚ), 0)
  else
    (0, (par1090 - 5000) / 5000 * (p.contatore_immissione_w : ℚ))

/-- `BatteryControllerUnified._handle_emergency_charge`.  Inputs: the current
`emergency_active` flag, the cached last-written `1101`
(`toi.get_register(1101, 0)`), and the telemetry values `1040` (SOC),
`1013` (battery current) and `1090`. -/
def handle_emergency_charge (p : BattParams) (emergency_active : Bool)
    (cur1101 : ℤ) (soc ibat par1090 : ℚ) : BattResult :=
  let entered : Bool :=
    if emergency_active = false ∧ soc = (p.emergency_start_soc_dec : ℚ) ∧
        (p.ibat_low_min : ℚ) ≤ ibat ∧ ibat ≤ (p.ibat_low_max : ℚ)
    then true else false
  let em1 : Bool := emergency_active || entered
  let w1 : List (ℤ × ℤ) := if entered then [(1102, 1)] else []
  let auto1 : Option Bool := if entered then some false else none
  if em1 = false then ⟨em1, w1, auto1⟩
  else if (p.emergency_stop_soc_dec : ℚ) ≤ soc then
    ⟨false, w1 ++ [(1102, 3), (1101, 0)], some true⟩
  else if p.emergency_use_meter = false then ⟨em1, w1, auto1⟩
  else
    let p_pre := (meter_convert_1090_to_power p par1090).1
    let limit : ℚ := (p.emergency_grid_limit_w : ℚ)
    let hyst : ℚ := (p.emergency_grid_hysteresis_w : ℚ)
    if p_pre < limit - hyst ∨ limit + hyst < p_pre then
      let nuovo0 := if p_pre < limit - hyst then cur1101 - p.step_emergency_1101
                    else cur1101 + p.step_emergency_1101
      let nuovo1 := if nuovo0 < p.guardrail_1101_min then p.guardrail_1101_min
                    else nuovo0
      let nuovo2 := if nuovo1 > p.emergency_1101_max then p.emergency_1101_max
                    else nuovo1
      let nuovo3 := if (p.ibat_max : ℚ) < ibat then
                      max (nuovo2 + p.step_emergency_1101) p.emergency_1101_max
                    else nuovo2
      ⟨em1, w1 ++ [(1101, nuovo3)], auto1⟩
    else ⟨em1, w1, auto1⟩

/-- Battery configuration as produced by `ConfigManager._default_config`
(`ibat_min`/`ibat_max` are absent there, so the constructor fallbacks
`5000`/`6000` apply; `grid_limit_w = 2800`, `grid_hysteresis_w = 100`,
`par_1101_min = -2500`, `emergency_1101_max = 0`, meter scale `3000` W). -/
def battDefaults : BattParams :=
  { emergency_start_soc_dec := 50
    emergency_stop_soc_dec := 400
    guardrail_1101_min := -2500
    ibat_low_min := 0
    ibat_low_max := 500
    ibat_max := 6000
    step_emergency_1101 := 50
    emergency_1101_max := 0
    emergency_use_meter := true
    emergency_grid_limit_w := 2800
    emergency_grid_hysteresis_w := 100
    contatore_prelievo_w := 3000
    contatore_immissione_w := 3000 }

/-- Claim C1 (refuting evaluation): with the default configuration, during an
active emergency charge with cached `1101 = 0`, `SOC = 100`, `ibat = 7000 >
ibat_max` and `1090 = 0` (so `P_prelievo = 3000 > limit + hyst = 2900`), the
`ibat > ibat_max` override computes `max(0 + 50, 0) = 50` and the controller
writes `1101 = 50`, which is strictly above `emergency_1101_max = 0`: the
bound claimed for the emergency branch is violated.  The override uses `max`
(a lower clamp) where the surrounding code and its comments
(`mai > emergency_1101_max (0)`, `riduco ulteriormente la carica`) require an
upper clamp. -/
theorem C1_emergency_override_exceeds_max :
    (handle_emergency_charge battDefaults true 0 100 7000 0).writes =
      [(1101, 50)] ∧
    battDefaults.emergency_1101_max = 0 ∧
    ¬((50 : ℤ) ≤ battDefaults.emergency_1101_max) := by
  refine ⟨?_, rfl, by decide⟩
  norm_num [handle_emergency_charge, meter_convert_1090_to_power, battDefaults]

/-! ## Scheduled-service completion and process shutdown -/

/-- Effects of a service `_finish_event` (or of the `run_forever` shutdown
path): the `write_register` calls issued in order, the value passed to
`set_autoconsumo_enabled` (if called) and to `set_service_active`
(if called). -/
structure FinishResult where
  writes : List (ℤ × ℤ)
  autoconsumo_enabled : Option Bool
  service_active : Option Bool
deriving Repr, DecidableEq

/-- `CaricaForzataDSOUnified._finish_event`: `1102 = 3`, re-enable
autoconsumo, clear `service_active` — it issues no `1101` write. -/
def carica_dso_finish_event : FinishResult :=
  ⟨[(1102, 3)], some true, some false⟩

/-- `ScaricaForzataDSOUnified._finish_event`: `1102 = 3`, `1101 = 0`,
re-enable autoconsumo, clear `service_active`. -/
def scarica_dso_finish_event : FinishResult :=
  ⟨[(1102, 3), (1101, 0)], some true, some false⟩

/-- `TradingScaricaUnified._finish_event`. -/
def trading_scarica_finish_event : FinishResult :=
  ⟨[(1102, 3), (1101, 0)], some true, some false⟩

/-- `TradingCaricaUnified._finish_event`. -/
def trading_carica_finish_event : FinishResult :=
  ⟨[(1102, 3), (1101, 0)], some true, some false⟩

/-- `IdeaUnifiedApp.run_forever`'s `finally` block on shutdown: it only calls
`set_service_active(False)`; no register write, no autoconsumo change. -/
def run_forever_shutdown : FinishResult := ⟨[], none, some false⟩

/-- Claim C2 (counterexample): the DSO-charge completion issues no
`1101 = 0` write, and process shutdown issues no register write at all and
does not re-enable autoconsumo — so completion does not restore
`1101 = 0` and `autoconsumo_enabled = true` on every exit path. -/
theorem C2_counterexample_missing_restores :
    (1101, 0) ∉ carica_dso_finish_event.writes ∧
    run_forever_shutdown.writes = [] ∧
    run_forever_shutdown.autoconsumo_enabled = none := by
  refine ⟨by decide, rfl, rfl⟩

/-- Claim C2 as amended: every service completion clears `service_active`,
restores `1102 = 3` and re-enables autoconsumo; DSO discharge, trading
discharge and trading charge also restore `1101 = 0`, but DSO charge does
not write `1101`; process shutdown only clears `service_active`. -/
theorem C2_amended_completion_restores :
    carica_dso_finish_event = ⟨[(1102, 3)], some true, some false⟩ ∧
    scarica_dso_finish_event = ⟨[(1102, 3), (1101, 0)], some true, some false⟩ ∧
    trading_scarica_finish_event =
      ⟨[(1102, 3), (1101, 0)], some true, some false⟩ ∧
    trading_carica_finish_event =
      ⟨[(1102, 3), (1101, 0)], some true, some false⟩ ∧
    run_forever_shutdown = ⟨[], none, some false⟩ :=
  ⟨rfl, rfl, rfl, rfl, rfl⟩

/-! ## Foreign-master detector (`idea_server.py`, `note_foreign`) -/

/-- Detector state: the `FOREIGN_TIMES` deque (oldest first, `maxlen=100`),
`FOREIGN_FRAMES_TOTAL`, and `FOREIGN_ALERT` (an int that is `0` or `1`). -/
structure ForeignState where
  times : List ℚ
  total : ℕ
  alert : ℕ
deriving Repr, DecidableEq

/-- Initial module state. -/
def foreign_init : ForeignState := ⟨[], 0, 0⟩

/-- The `while FOREIGN_TIMES and t - FOREIGN_TIMES[0] > window_s: popleft()`
loop: drop timestamps from the front while they are older than the window. -/
def foreign_prune (w t : ℚ) : List ℚ → List ℚ
  | [] => []
  | x :: xs => if w < t - x then foreign_prune w t xs else x :: xs

/-- `note_foreign()` called at time `t` with config values `foreign_window_s`
and `foreign_threshold`.  The deque append honours `maxlen=100`; the alert is
recomputed (to `1` or `0`) from the pruned window length on every call — and
only on calls. -/
def note_foreign (w : ℚ) (thr : ℕ) (st : ForeignState) (t : ℚ) :
    ForeignState :=
  let appended := if 100 ≤ st.times.length then st.times.tail ++ [t]
                  else st.times ++ [t]
  let pruned := foreign_prune w t appended
  ⟨pruned, st.total + 1, if thr ≤ pruned.length then 1 else 0⟩

/-- Detector state after a sequence of foreign-frame events at the given
times (in order). -/
def foreign_run (w : ℚ) (thr : ℕ) (evs : List ℚ) : ForeignState :=
  evs.foldl (note_foreign w thr) foreign_init

/-- The events of a trace that happened up to (and including) time `T`. -/
def events_upto (T : ℚ) : List ℚ → List ℚ
  | [] => []
  | x :: xs => if x ≤ T then x :: events_upto T xs else events_upto T xs

/-- The `FOREIGN_ALERT` value observed at time `T` for an event trace: the
alert field after the events that happened up to `T`, since nothing else in
the module ever assigns `FOREIGN_ALERT`. -/
def foreign_alert_at (w : ℚ) (thr : ℕ) (evs : List ℚ) (T : ℚ) : ℕ :=
  (foreign_run w thr (events_upto T evs)).alert

/-- Helper: pruning drops nothing when no element is older than the
window. -/
theorem foreign_prune_eq_self (w t : ℚ) (l : List ℚ)
    (h : ∀ x ∈ l, ¬(w < t - x)) : foreign_prune w t l = l := by
  induction l with
  | nil => rfl
  | cons x xs ih =>
      unfold foreign_prune
      rw [if_neg (h x (List.mem_cons_self x xs))]

/-- Helper: pruning skips a whole prefix of stale elements. -/
theorem foreign_prune_append_stale (w t : ℚ) (l : List ℚ) (y : List ℚ)
    (h : ∀ x ∈ l, w < t - x) :
    foreign_prune w t (l ++ y) = foreign_prune w t y := by
  induction l with
  | nil => rfl
  | cons x xs ih =>
      have hx : w < t - x := h x (List.mem_cons_self x xs)
      have step : foreign_prune w t (x :: (xs ++ y)) =
          foreign_prune w t (xs ++ y) := by
        simp only [foreign_prune]
        rw [if_pos hx]
      calc foreign_prune w t ((x :: xs) ++ y)
          = foreign_prune w t (x :: (xs ++ y)) := by rw [List.cons_append]
        _ = foreign_prune w t (xs ++ y) := step
        _ = foreign_prune w t y := ih fun z hz => h z (List.mem_cons_of_mem x hz)

/-- Helper: a trace that lies entirely before `T` is kept whole by
`events_upto`. -/
theorem events_upto_eq_self (T : ℚ) (evs : List ℚ)
    (h : ∀ x ∈ evs, x ≤ T) : events_upto T evs = evs := by
  induction evs with
  | nil => rfl
  | cons x xs ih =>
      unfold events_upto
      rw [if_pos (h x (List.mem_cons_self x xs))]
      rw [ih fun z hz => h z (List.mem_cons_of_mem x hz)]

/-- Claim C3 (counterexample): with the default window (10 s) and threshold
(3), after events at times 0, 1, 2 the alert is 1; at time 100 — idle for
98 s, far beyond the window — the observed alert is still 1, not 0, because
`FOREIGN_ALERT` is only ever recomputed inside `note_foreign` and no code
path clears it while no new event arrives. -/
theorem C3_counterexample_alert_persists_after_idle :
    foreign_alert_at 10 3 [0, 1, 2] 2 = 1 ∧
    (10 : ℚ) < 100 - 2 ∧
    foreign_alert_at 10 3 [0, 1, 2] 100 = 1 := by
  refine ⟨?_, by norm_num, ?_⟩ <;>
    norm_num [foreign_alert_at, foreign_run, events_upto, note_foreign,
      foreign_prune, foreign_init, List.foldl]

/-- Claim C3 as amended: (a) an event that brings the in-window count to at
least `foreign_threshold` sets the alert to 1 during that very call; (b) with
no further events, the alert observed at any later time is exactly the alert
left by the last call — it does not decay after `window_s` of idle time; (c)
the alert returns to 0 only on the next event, when every retained timestamp
has fallen out of the window (given `foreign_threshold ≥ 2`). -/
theorem C3_amended_foreign_detector :
    (∀ (w : ℚ) (thr : ℕ) (st : ForeignState) (t : ℚ),
      0 ≤ w → st.times.length < 100 →
      (∀ x ∈ st.times, 0 ≤ t - x ∧ t - x ≤ w) →
      thr ≤ st.times.length + 1 →
      (note_foreign w thr st t).alert = 1) ∧
    (∀ (w : ℚ) (thr : ℕ) (evs : List ℚ) (T : ℚ),
      (∀ x ∈ evs, x ≤ T) →
      foreign_alert_at w thr evs T = (foreign_run w thr evs).alert) ∧
    (∀ (w : ℚ) (thr : ℕ) (st : ForeignState) (t : ℚ),
      0 ≤ w → 2 ≤ thr → st.times.length < 100 →
      (∀ x ∈ st.times, w < t - x) →
      (note_foreign w thr st t).alert = 0) := by
  refine ⟨fun w thr st t hw hlen hin hthr => ?_,
    fun w thr evs T h => ?_, fun w thr st t hw hthr hlen hstale => ?_⟩
  · have hkeep : ∀ x ∈ st.times ++ [t], ¬(w < t - x) := by
      intro x hx
      rcases List.mem_append.1 hx with hx | hx
      · have := (hin x hx).2
        linarith
      · have : x = t := List.mem_singleton.1 hx
        subst this
        simp only [sub_self]
        linarith
    unfold note_foreign
    rw [if_neg (by omega)]
    dsimp only
    rw [foreign_prune_eq_self w t _ hkeep]
    have hle : thr ≤ (st.times ++ [t]).length := by
      simpa using hthr
    rw [if_pos hle]
  · unfold foreign_alert_at
    rw [events_upto_eq_self T evs h]
  · unfold note_foreign
    rw [if_neg (by omega)]
    dsimp only
    rw [foreign_prune_append_stale w t st.times [t] hstale]
    have hone : foreign_prune w t [t] = [t] := by
      simp only [foreign_prune]
      rw [if_neg (by simp only [sub_self]; linarith)]
    rw [hone]
    simp only [List.length_singleton]
    rw [if_neg (by omega)]

/-- Witness for C3-amended at concrete inputs: the third event within the
window raises the alert; an all-past trace is observed unchanged at a later
time; a single event after the window emptied resets the alert to 0. -/
theorem C3_amended_foreign_detector_witness :
    (note_foreign 10 3 ⟨[0, 1], 2, 0⟩ 2).alert = 1 ∧
    foreign_alert_at 10 3 [0, 1, 2] 5 = (foreign_run 10 3 [0, 1, 2]).alert ∧
    (note_foreign 10 3 ⟨[0], 1, 1⟩ 20).alert = 0 :=
  ⟨C3_amended_foreign_detector.1 10 3 ⟨[0, 1], 2, 0⟩ 2 (by norm_num)
      (by decide)
      (by intro x hx
          rcases List.mem_cons.1 hx with h | h
          · subst h; norm_num
          · have : x = 1 := List.mem_singleton.1 h
            subst this; norm_num)
      (by decide),
   C3_amended_foreign_detector.2.1 10 3 [0, 1, 2] 5
      (by intro x hx
          rcases List.mem_cons.1 hx with h | h
          · subst h; norm_num
          · rcases List.mem_cons.1 h with h | h
            · subst h; norm_num
            · have : x = 2 := List.mem_singleton.1 h
              subst this; norm_num),
   C3_amended_foreign_detector.2.2 10 3 ⟨[0], 1, 1⟩ 20 (by norm_num)
      (by decide) (by decide)
      (by intro x hx
          have : x = 0 := List.mem_singleton.1 hx
          subst this; norm_num)⟩

/-! ## `ToiDea` inbox watcher (`idea_server.py`, `toidea_watcher`) -/

/-- What one iteration of the watcher finds: missing file, a file
`ET.parse` raises on, or a parsed file with its `ID` and `CMD` texts and the
results of `int()` on the `IND`/`VAL` texts (`none` = `int()` raised). -/
inductive ToFileRead where
  | absent
  | parseError
  | parsed (id cmd : String) (ind val : Option ℤ)
deriving Repr, DecidableEq

/-- A command posted into `PENDING_CMD`. -/
structure PendingCmd where
  id : String
  cmd : String
  ind : ℤ
  val : ℤ
deriving Repr, DecidableEq

/-- One iteration of `toidea_watcher`, given the current `LAST_TOIDEA_ID`.
Returns the new `LAST_TOIDEA_ID` and the command posted (if any).  The source
checks the ID first, then evaluates `int(...)` on `IND`/`VAL` (an exception
jumps to the handler without touching `LAST_TOIDEA_ID`), and only then
validates `CMD` — the `CMD` rejection path does advance the ID. -/
def toidea_watcher_step (r : ToFileRead) (lastId : String) :
    String × Option PendingCmd :=
  match r with
  | .absent => (lastId, none)
  | .parseError => (lastId, none)
  | .parsed id cmd ind val =>
    if id = "" ∨ id = lastId then (lastId, none)
    else
      match ind, val with
      | some i, some v =>
        if cmd = "07" ∨ cmd = "09" then (id, some ⟨id, cmd, i, v⟩)
        else (id, none)
      | some _, none => (lastId, none)
      | none, _ => (lastId, none)

/-- Claim C4 (counterexample): a `ToiDea.xml` with fresh `ID = "5"`, valid
`CMD = "07"` but a `VAL` that `int()` cannot parse raises before the ID is
recorded: `LAST_TOIDEA_ID` stays `""`, so the same file content is
re-processed on the next poll — contradicting the claim that every inbox
error advances the last-seen ID. -/
theorem C4_counterexample_parse_error_keeps_id :
    toidea_watcher_step (ToFileRead.parsed ("5") ("07") (some 1101) none) ""
      = ("", none) ∧
    toidea_watcher_step ToFileRead.parseError ("x") = (("x"), none) ∧
    ("" : String) ≠ ("5") := by
  refine ⟨by decide, rfl, by decide⟩

/-- Claim C4 as amended: an unknown `CMD` value on a fresh ID is rejected
with a log line and does advance the last-seen ID; a valid `CMD` posts the
command and advances the ID; but a file-level parse error, or a malformed
`IND`/`VAL` (where `int()` raises), is only logged and leaves the last-seen
ID unchanged, so that file content is re-processed. -/
theorem C4_amended_watcher_id_advance :
    (∀ (lastId id cmd : String) (i v : ℤ),
      id ≠ "" → id ≠ lastId → ¬(cmd = "07" ∨ cmd = "09") →
      toidea_watcher_step (.parsed id cmd (some i) (some v)) lastId =
        (id, none)) ∧
    (∀ (lastId id cmd : String) (i v : ℤ),
      id ≠ "" → id ≠ lastId → (cmd = "07" ∨ cmd = "09") →
      toidea_watcher_step (.parsed id cmd (some i) (some v)) lastId =
        (id, some ⟨id, cmd, i, v⟩)) ∧
    (∀ lastId : String,
      toidea_watcher_step .parseError lastId = (lastId, none)) ∧
    (∀ (lastId id cmd : String) (i : ℤ),
      toidea_watcher_step (.parsed id cmd none none) lastId = (lastId, none) ∧
      toidea_watcher_step (.parsed id cmd (some i) none) lastId =
        (lastId, none)) := by
  refine ⟨fun lastId id cmd i v h1 h2 h3 => ?_,
    fun lastId id cmd i v h1 h2 h3 => ?_, fun lastId => rfl,
    fun lastId id cmd i => ⟨?_, ?_⟩⟩
  · unfold toidea_watcher_step
    dsimp only
    rw [if_neg (by tauto), if_neg h3]
  · unfold toidea_watcher_step
    dsimp only
    rw [if_neg (by tauto), if_pos h3]
  · unfold toidea_watcher_step
    dsimp only
    split
    · rfl
    · rfl
  · unfold toidea_watcher_step
    dsimp only
    split
    · rfl
    · rfl

/-- Witness for C4-amended at concrete inputs. -/
theorem C4_amended_watcher_id_advance_witness :
    toidea_watcher_step (.parsed ("7") ("99") (some 1101) (some 5)) "" =
      (("7"), none) ∧
    toidea_watcher_step (.parsed ("8") ("07") (some 1101) (some 5)) "" =
      (("8"), some ⟨("8"), ("07"), 1101, 5⟩) ∧
    toidea_watcher_step .parseError ("y") = (("y"), none) ∧
    toidea_watcher_step (.parsed ("9") ("07") (some 1101) none) "" =
      ("", none) :=
  ⟨C4_amended_watcher_id_advance.1 "" ("7") ("99") 1101 5 (by decide)
      (by decide) (by decide),
   C4_amended_watcher_id_advance.2.1 "" ("8") ("07") 1101 5 (by decide)
      (by decide) (Or.inl rfl),
   C4_amended_watcher_id_advance.2.2.1 ("y"),
   (C4_amended_watcher_id_advance.2.2.2 "" ("9") ("07") 1101).2⟩

/-- Claim C5 (counterexample): a tick in the community branch with
`autoconsumo_enabled = true`, `1090 = 5000` (in range), `SOC = 960 ≥ 950`,
sharing on, neighbour `1090 = 4990` in deficit, previous `1101 = 1000` and
default gains: the community error `|5011 − 5000| = 11` is inside the
deadband, so the tick ends with **no** `1101` write and **no** assignment to
`debito_energetico` — contradicting the claim that in both branches every
tick ends by clamping, setting `debito_energetico` and submitting the
write. -/
theorem C5_counterexample_community_skips_write_and_debito :
    ac_tick acDefaults 1000 true false true 5000 960 4990 =
      ⟨1000, none, none⟩ := by
  norm_num [ac_tick, balance_energy, acDefaults, pyInt]

/-- Helper: the local-branch clamp never exceeds `param1101_max`. -/
theorem clamp_low_then_high_le (p : AcParams) (x : ℤ) :
    clamp_low_then_high p x ≤ p.param1101_max := by
  unfold clamp_low_then_high
  dsimp only
  repeat' split
  all_goals omega

/-- Helper: the local-branch clamp stays at or above `param1101_min` when
the configured interval is non-empty. -/
theorem clamp_low_then_high_ge (p : AcParams) (x : ℤ)
    (h : p.param1101_min ≤ p.param1101_max) :
    p.param1101_min ≤ clamp_low_then_high p x := by
  unfold clamp_low_then_high
  dsimp only
  repeat' split
  all_goals omega

/-- Helper: the community-branch clamp stays at or above `param1101_min`. -/
theorem clamp_high_then_low_ge (p : AcParams) (x : ℤ) :
    p.param1101_min ≤ clamp_high_then_low p x := by
  unfold clamp_high_then_low
  dsimp only
  repeat' split
  all_goals omega

/-- Helper: the community-branch clamp never exceeds `param1101_max` when
the configured interval is non-empty. -/
theorem clamp_high_then_low_le (p : AcParams) (x : ℤ)
    (h : p.param1101_min ≤ p.param1101_max) :
    clamp_high_then_low p x ≤ p.param1101_max := by
  unfold clamp_high_then_low
  dsimp only
  repeat' split
  all_goals omega

/-- Claim C5 as amended: with `autoconsumo_enabled = true` and `1090` in
`[0, 10000]`, the **local** branch always ends by clamping `1101` into
`[param1101_min, param1101_max]`, assigning
`debito_energetico := (1101 == param1101_max && 1090 < 5000 − deadband)` and
submitting the clamped write; the **community** branch never assigns
`debito_energetico`, and it submits the clamped write only when the
community error exceeds the deadband (its early exits submit nothing). -/
theorem C5_amended_tick_branch_contract :
    (∀ (p : AcParams) (sp : ℤ) (sensor : ℚ),
      p.param1101_min ≤ p.param1101_max →
      0 ≤ pyInt sensor → pyInt sensor ≤ 10000 →
      (regolazione_autoconsumo_locale p sp sensor).write1101 =
        some (regolazione_autoconsumo_locale p sp sensor).setpoint ∧
      p.param1101_min ≤ (regolazione_autoconsumo_locale p sp sensor).setpoint ∧
      (regolazione_autoconsumo_locale p sp sensor).setpoint ≤
        p.param1101_max ∧
      (regolazione_autoconsumo_locale p sp sensor).debito.isSome = true ∧
      ((regolazione_autoconsumo_locale p sp sensor).debito = some true ↔
        ((regolazione_autoconsumo_locale p sp sensor).setpoint =
            p.param1101_max ∧
          pyInt sensor < p.grid_setpoint_1090 - p.grid_deadband))) ∧
    (∀ (p : AcParams) (sp : ℤ) (lv rv : ℚ),
      (balance_energy p sp lv rv).debito = none) ∧
    (∀ (p : AcParams) (sp : ℤ) (lv rv : ℚ) (w : ℤ),
      p.param1101_min ≤ p.param1101_max →
      (balance_energy p sp lv rv).write1101 = some w →
      w = (balance_energy p sp lv rv).setpoint ∧
      p.param1101_min ≤ w ∧ w ≤ p.param1101_max) := by
  refine ⟨fun p sp sensor hmm h0 h1 => ?_, fun p sp lv rv => ?_,
    fun p sp lv rv w hmm => ?_⟩
  · unfold regolazione_autoconsumo_locale
    dsimp only
    rw [if_neg (by omega)]
    dsimp only
    have h3 := clamp_low_then_high_le p (ac_local_step p sp (pyInt sensor))
    have h4 := clamp_low_then_high_ge p (ac_local_step p sp (pyInt sensor)) hmm
    refine ⟨rfl, h4, h3, rfl, ?_⟩
    by_cases hC : p.param1101_max ≤
        clamp_low_then_high p (ac_local_step p sp (pyInt sensor)) ∧
        pyInt sensor < p.grid_setpoint_1090 - p.grid_deadband
    · rw [if_pos hC]
      simp only [Option.some.injEq]
      constructor
      · intro _
        exact ⟨by omega, hC.2⟩
      · intro _
        trivial
    · rw [if_neg hC]
      simp only [Option.some.injEq]
      constructor
      · intro hfalse
        exact Bool.noConfusion hfalse
      · intro hcon
        exact absurd ⟨le_of_eq hcon.1.symm, hcon.2⟩ hC
  · unfold balance_energy
    dsimp only
    repeat' split
    all_goals rfl
  · unfold balance_energy
    dsimp only
    repeat' split
    all_goals intro h
    all_goals first
      | exact Option.noConfusion h
      | (obtain rfl := Option.some.inj h
         exact ⟨rfl, clamp_high_then_low_ge p _,
           clamp_high_then_low_le p _ hmm⟩)

/-- Witness for C5-amended at concrete inputs: local branch at
`1090 = 4800` with defaults (bounds hold); community branch never touches
`debito_energetico`; a community write of `1020` (from `1090 = 5000`,
remote `4000`) equals the clamped setpoint and lies inside the bounds. -/
theorem C5_amended_tick_branch_contract_witness :
    (acDefaults.param1101_min ≤
        (regolazione_autoconsumo_locale acDefaults 1000 4800).setpoint ∧
      (regolazione_autoconsumo_locale acDefaults 1000 4800).setpoint ≤
        acDefaults.param1101_max) ∧
    (balance_energy acDefaults 1000 5000 4000).debito = none ∧
    ((1020 : ℤ) = (balance_energy acDefaults 1000 5000 4000).setpoint ∧
      acDefaults.param1101_min ≤ (1020 : ℤ) ∧
      (1020 : ℤ) ≤ acDefaults.param1101_max) :=
  ⟨⟨(C5_amended_tick_branch_contract.1 acDefaults 1000 4800 (by decide)
        (by decide) (by decide)).2.1,
    (C5_amended_tick_branch_contract.1 acDefaults 1000 4800 (by decide)
        (by decide) (by decide)).2.2.1⟩,
   C5_amended_tick_branch_contract.2.1 acDefaults 1000 5000 4000,
   C5_amended_tick_branch_contract.2.2 acDefaults 1000 5000 4000 1020
     (by decide)
     (by norm_num [balance_energy, ac_community_step, clamp_high_then_low,
       acDefaults, pyInt])⟩

/-! ## SerialBus write path (`idea_server.py`, `io_worker`, step 1) -/

/-- What one write attempt encounters on the bus: the `BUS.write_reg` call
succeeds, or it raises and the subsequent read-back of the same index
returns the given registers (`none` = the read-back itself raised). -/
inductive WriteOutcome where
  | ok
  | err (readback : Option ℤ)
deriving Repr, DecidableEq

/-- The `while attempts < w_retries and not ok` loop of `io_worker`, with
`verify = verify_writes`.  `o n` is what the bus does on the `n`-th attempt;
returns the final `ok` and the number of attempts made.  On an error with
verification enabled, a read-back equal to the requested value sets
`ok = True` (the source prints `conferma via read-back`); otherwise the loop
backs off and retries. -/
def io_write_go (verify : Bool) (val : ℤ) (o : ℕ → WriteOutcome) :
    ℕ → ℕ → Bool × ℕ
  | attempts, 0 => (false, attempts)
  | attempts, rem + 1 =>
    match o attempts with
    | .ok => (true, attempts + 1)
    | .err rb =>
      if verify = true ∧ rb = some val then (true, attempts + 1)
      else io_write_go verify val o (attempts + 1) rem

/-- The whole retry loop with a budget of `write_retries` attempts. -/
def io_write (verify : Bool) (retries : ℕ) (val : ℤ) (o : ℕ → WriteOutcome) :
    Bool × ℕ :=
  io_write_go verify val o 0 retries

/-- The `STATS` fields touched by the write path, plus `LAST_WRITER_ID`. -/
structure WriterStats where
  write_ok : ℕ
  write_err : ℕ
  last_writer_id : String
deriving Repr, DecidableEq

/-- The write step of one `io_worker` cycle: run the retry loop and then
either record `LAST_WRITER_ID` and bump `write_ok`, or bump `write_err`.
Returns the updated stats and the number of attempts made. -/
def io_worker_write (verify : Bool) (retries : ℕ) (cmdId : String) (val : ℤ)
    (o : ℕ → WriteOutcome) (st : WriterStats) : WriterStats × ℕ :=
  let r := io_write verify retries val o
  (if r.1 then
     { write_ok := st.write_ok + 1, write_err := st.write_err,
       last_writer_id := cmdId }
   else
     { write_ok := st.write_ok, write_err := st.write_err + 1,
       last_writer_id := st.last_writer_id }, r.2)

/-- Claim C8: with verification enabled, if the first write attempt raises
but the read-back of the same index returns the requested value, the write
is treated as successful after that single attempt — `write_ok` is
incremented and the command's ID is recorded as `LAST_WRITER_ID` — instead
of being retried to exhaustion. -/
theorem C8_write_readback_rescue :
    ∀ (retries : ℕ) (cmdId : String) (val : ℤ) (o : ℕ → WriteOutcome)
      (st : WriterStats),
      1 ≤ retries → o 0 = .err (some val) →
      io_worker_write true retries cmdId val o st =
        ({ write_ok := st.write_ok + 1, write_err := st.write_err,
           last_writer_id := cmdId }, 1) := by
  intro retries cmdId val o st h1 h2
  obtain ⟨n, rfl⟩ : ∃ n, retries = n + 1 := ⟨retries - 1, by omega⟩
  have hio : io_write_go true val o 0 (n + 1) = (true, 1) := by
    rw [io_write_go, h2]
    dsimp only
    rw [if_pos (show true = true ∧ some val = some val from ⟨rfl, rfl⟩)]
  unfold io_worker_write io_write
  rw [hio]
  rfl

/-- Witness for C8 at concrete inputs: budget 3, every attempt raising with
read-back `5` equal to the requested value `5`. -/
theorem C8_write_readback_rescue_witness :
    io_worker_write true 3 ("42") 5 (fun _ => .err (some 5)) ⟨0, 0, ("")⟩ =
      (⟨1, 0, ("42")⟩, 1) :=
  C8_write_readback_rescue 3 ("42") 5 (fun _ => .err (some 5)) ⟨0, 0, ("")⟩
    (by decide) rfl

/-! ## Flat-XML tag reader (`_get_value_from_tag`, textually identical in
`idea_controller_unificato.py`, `battery_controller.py` and
`controllo_reset_macchina.py`) -/

/-- Python `str.find(needle, start)`: the least index `i ≥ start` at which
`needle` occurs in `hay`; `none` models Python's `-1`. -/
def pyFind (hay needle : List Char) (start : ℕ) : Option ℕ :=
  ((List.range (hay.length + 1)).filter
    (fun i => decide (start ≤ i) && needle.isPrefixOf (hay.drop i))).head?

/-- The whitespace test of Python `str.strip()` (the whitespace characters
that can occur in these files). -/
def pyIsSpace (c : Char) : Bool :=
  c == ' ' || c == '\t' || c == '\n' || c == '\r'

/-- Python `str.strip()`. -/
def pyStrip (s : List Char) : List Char :=
  ((s.dropWhile pyIsSpace).reverse.dropWhile pyIsSpace).reverse

/-- The `inner_text.replace(",", ".")` step. -/
def commaToDot (s : List Char) : List Char :=
  s.map fun c => if c = ',' then '.' else c

/-- Value of a nonempty digit string. -/
def digitsToNat (s : List Char) : ℕ :=
  s.foldl (fun a c => a * 10 + (c.toNat - 48)) 0

/-- Python `float(...)` restricted to the unsigned decimal forms `digits`,
`digits.digits`, `.digits` and `digits.` that these snapshot files contain
(exponents, `inf`/`nan` and underscores are not modelled); `none` models a
raised `ValueError`. -/
def pyParseUnsigned (s : List Char) : Option ℚ :=
  if s.count '.' = 0 then
    if s ≠ [] ∧ s.all Char.isDigit then some ((digitsToNat s : ℤ) : ℚ)
    else none
  else if s.count '.' = 1 then
    let ip := s.takeWhile (fun c => c != '.')
    let fp := (s.dropWhile (fun c => c != '.')).tail
    if (ip ≠ [] ∨ fp ≠ []) ∧ ip.all Char.isDigit ∧ fp.all Char.isDigit then
      some ((digitsToNat ip : ℚ) + (digitsToNat fp : ℚ) / ((10 : ℚ) ^ fp.length))
    else none
  else none

/-- Python `float(...)` with an optional sign. -/
def pyParseFloat (s : List Char) : Option ℚ :=
  match s with
  | '+' :: rest => pyParseUnsigned rest
  | '-' :: rest => (pyParseUnsigned rest).map (fun q => -q)
  | _ => pyParseUnsigned s

/-- The `f"<{tag_name}>"` opening tag. -/
def openTagOf (tag : List Char) : List Char := '<' :: (tag ++ ['>'])

/-- The `f"</{tag_name}>"` closing tag. -/
def closeTagOf (tag : List Char) : List Char := '<' :: '/' :: (tag ++ ['>'])

/-- `_get_value_from_tag(xml_text, tag_name)`: find the opening tag, find
the closing tag after it, strip the slice between them, replace commas by
dots, parse as float; any failure (including the `except Exception` around
the whole body) yields `0.0`. -/
def get_value_from_tag (xml tag : List Char) : ℚ :=
  match pyFind xml (openTagOf tag) 0 with
  | none => 0
  | some idx =>
    match pyFind xml (closeTagOf tag) (idx + (openTagOf tag).length) with
    | none => 0
    | some e =>
      match pyParseFloat (commaToDot (pyStrip
          ((xml.drop (idx + (openTagOf tag).length)).take
            (e - (idx + (openTagOf tag).length))))) with
      | none => 0
      | some q => q

/-- Claim C9: the tag reader is total and defaults to `0.0`: if the opening
tag does not occur, or no closing tag occurs after it, or the inner text
does not parse as a number, the function returns `0` — so a register missing
from the snapshot file is read as value `0` by every controller. -/
theorem C9_tag_reader_defaults_to_zero :
    ∀ xml tag : List Char,
      (pyFind xml (openTagOf tag) 0 = none → get_value_from_tag xml tag = 0) ∧
      (∀ idx : ℕ, pyFind xml (openTagOf tag) 0 = some idx →
        pyFind xml (closeTagOf tag) (idx + (openTagOf tag).length) = none →
        get_value_from_tag xml tag = 0) ∧
      (∀ idx e : ℕ, pyFind xml (openTagOf tag) 0 = some idx →
        pyFind xml (closeTagOf tag) (idx + (openTagOf tag).length) = some e →
        pyParseFloat (commaToDot (pyStrip
          ((xml.drop (idx + (openTagOf tag).length)).take
            (e - (idx + (openTagOf tag).length))))) = none →
        get_value_from_tag xml tag = 0) := by
  intro xml tag
  refine ⟨fun h1 => ?_, fun idx h1 h2 => ?_, fun idx e h1 h2 h3 => ?_⟩
  · unfold get_value_from_tag
    rw [h1]
  · unfold get_value_from_tag
    rw [h1]
    dsimp only
    rw [h2]
  · unfold get_value_from_tag
    rw [h1]
    dsimp only
    rw [h2]
    dsimp only
    rw [h3]

/-- Witness for C9 at concrete inputs: no opening tag; an opening tag with
no closing tag after it; inner text `x` that does not parse. -/
theorem C9_tag_reader_defaults_to_zero_witness :
    get_value_from_tag ['a', 'b'] ['t'] = 0 ∧
    get_value_from_tag ['<', 't', '>', '5'] ['t'] = 0 ∧
    get_value_from_tag ['<', 't', '>', 'x', '<', '/', 't', '>'] ['t'] = 0 :=
  ⟨(C9_tag_reader_defaults_to_zero ['a', 'b'] ['t']).1 (by decide),
   (C9_tag_reader_defaults_to_zero ['<', 't', '>', '5'] ['t']).2.1 0
     (by decide) (by decide),
   (C9_tag_reader_defaults_to_zero
       ['<', 't', '>', 'x', '<', '/', 't', '>'] ['t']).2.2 0 4
     (by decide) (by decide) (by decide)⟩
